import Mathlib

/-!
Verification of the rule-matching / parameter-resolution / dispatch /
resource-arbitration core of the uCAN CAN-bus automation gateway.

Shallow embedding conventions:
* C integer types are modelled as `Nat` (signed values as `Int`), with the
  conversions the C code performs written as explicit `% 2 ^ w` reductions
  at the points where a narrowing assignment or cast occurs.
* C byte arrays (`uint8_t data[8]`) are modelled as total functions
  `Nat → Nat`; entries hold byte values (< 256).  Reads the C code performs
  through `const uint8_t*` loads are written `f i % 256` where the loaded
  byte value matters arithmetically.
* The platform-specific virtual methods of `ActionManagerBase`
  (`execute_gpio_action`, `get_action_definition`, the CAN interface, ...)
  are modelled as fields of a `PlatformHooks` record passed to the
  dispatch functions; the platform implementations in the repository only
  drive hardware and never write the rule table.
* `millis()` (the cooperative clock) is passed in as the `now` argument;
  it stands for the `uint32_t` millisecond counter.
* The C-style union `ActionParams` is flattened into a product; each rule
  only ever reads the variant belonging to its `ActionKind`, and no code
  path under verification aliases two variants.
-/

/-- ParamSource from src/src/actions/param_mapping.h. -/
inductive ParamSource where
  | PARAM_FROM_RULE
  | PARAM_FROM_CAN_DATA
deriving DecidableEq

export ParamSource (PARAM_FROM_RULE PARAM_FROM_CAN_DATA)

/-- ActionType: the rule kinds dispatched by `ActionManagerBase`.  The header
declaring the full enum is not part of `src/`; the constructors are taken from
the switch statements in src/src/actions/action_manager_base.cpp and the data
model in the specification (one tag per supported action kind).  Numeric enum
values are irrelevant to the verified code paths. -/
inductive ActionType where
  | ACTION_NONE
  | ACTION_GPIO_SET
  | ACTION_GPIO_CLEAR
  | ACTION_GPIO_TOGGLE
  | ACTION_CAN_SEND
  | ACTION_CAN_SEND_PERIODIC
  | ACTION_PWM_SET
  | ACTION_PWM_CONFIGURE
  | ACTION_NEOPIXEL_COLOR
  | ACTION_NEOPIXEL_OFF
  | ACTION_ADC_READ
  | ACTION_ADC_READ_SEND
  | ACTION_I2C_WRITE
  | ACTION_I2C_READ_BUFFER
  | ACTION_GPIO_READ_BUFFER
  | ACTION_ADC_READ_BUFFER
  | ACTION_BUFFER_SEND
  | ACTION_BUFFER_CLEAR
deriving DecidableEq

export ActionType (ACTION_NONE ACTION_GPIO_SET ACTION_GPIO_CLEAR ACTION_GPIO_TOGGLE
  ACTION_CAN_SEND ACTION_CAN_SEND_PERIODIC ACTION_PWM_SET ACTION_NEOPIXEL_COLOR
  ACTION_NEOPIXEL_OFF)

/-- CANMessage from src/src/hal/can_interface.h. -/
structure CANMessage where
  id : Nat
  data : Nat → Nat
  length : Nat
  extended : Bool
  remote : Bool
  timestamp : Nat

/-- GPIO variant of the ActionParams union. -/
structure GpioParams where
  pin : Nat

/-- PWM variant of the ActionParams union. -/
structure PwmParams where
  pin : Nat
  duty : Nat

/-- NeoPixel variant of the ActionParams union. -/
structure NeopixelParams where
  r : Nat
  g : Nat
  b : Nat
  brightness : Nat

/-- CAN-send variant of the ActionParams union (the periodic send stores its
interval here, as read by `update_periodic`). -/
structure CanSendParams where
  can_id : Nat
  data : Nat → Nat
  length : Nat
  interval_ms : Nat

/-- ActionParams: the C union flattened to a product (see module comment). -/
structure ActionParams where
  gpio : GpioParams
  pwm : PwmParams
  neopixel : NeopixelParams
  can_send : CanSendParams

/-- ActionRule: match pattern, action tag, parameter payload and periodic
bookkeeping, as used throughout src/src/actions/action_manager_base.cpp.
`id = 0` marks an unused slot. -/
structure ActionRule where
  id : Nat
  enabled : Bool
  can_id : Nat
  can_id_mask : Nat
  data : Nat → Nat
  data_mask : Nat → Nat
  data_length : Nat
  action : ActionType
  param_source : ParamSource
  param_data_offset : Nat
  params : ActionParams
  last_execute_ms : Nat
  execute_count : Nat

/-- The all-zero rule produced by `memset(&rules_[index], 0, sizeof(ActionRule))`. -/
def empty_rule : ActionRule where
  id := 0
  enabled := false
  can_id := 0
  can_id_mask := 0
  data := fun _ => 0
  data_mask := fun _ => 0
  data_length := 0
  action := ACTION_NONE
  param_source := PARAM_FROM_RULE
  param_data_offset := 0
  params :=
    { gpio := { pin := 0 }
      pwm := { pin := 0, duty := 0 }
      neopixel := { r := 0, g := 0, b := 0, brightness := 0 }
      can_send := { can_id := 0, data := fun _ => 0, length := 0, interval_ms := 0 } }
  last_execute_ms := 0
  execute_count := 0

-- ===========================================================================
-- Rule matching (ActionManagerBase::matches_rule)
-- ===========================================================================

/-- The data-byte comparison loop of `matches_rule`: checks bytes `0..n-1`
with the per-byte mask.  The C loop exits early on a mismatch; the result is
the conjunction over the range either way. -/
def data_bytes_match (message : CANMessage) (rule : ActionRule) : Nat → Bool
  | 0 => true
  | n + 1 =>
    data_bytes_match message rule n &&
      decide ((message.data n &&& rule.data_mask n) = (rule.data n &&& rule.data_mask n))

/-- ActionManagerBase::matches_rule from src/src/actions/action_manager_base.cpp:
masked CAN-ID equality, then (when `data_length > 0`) a frame-length check and
the masked per-byte comparison. -/
def matches_rule (message : CANMessage) (rule : ActionRule) : Bool :=
  if (message.id &&& rule.can_id_mask) ≠ (rule.can_id &&& rule.can_id_mask) then
    false
  else if rule.data_length > 0 then
    if message.length < rule.data_length then
      false
    else
      data_bytes_match message rule rule.data_length
  else
    true

-- ===========================================================================
-- Parameter extraction (src/src/actions/param_mapping.h)
-- ===========================================================================

/-- ParamMapping from src/src/actions/param_mapping.h.  The descriptive
string fields (`name`, `role`) and the `type` tag are not read by the
extraction functions and are omitted. -/
structure ParamMapping where
  data_byte_index : Nat
  bit_offset : Nat
  bit_length : Nat
  min_value : Nat
  max_value : Nat

/-- Reinterpretation of a byte as a signed `int8_t` (the C cast
`(int8_t)can_data[...]`). -/
def toSigned8 (b : Nat) : Int :=
  if b % 256 < 128 then (Int.ofNat (b % 256)) else (Int.ofNat (b % 256)) - 256

/-- extract_uint8 from src/src/actions/param_mapping.h: bounds check, optional
bit-field isolation when `bit_length < 8`, then the two clamping assignments
(whose right-hand sides carry the `(uint8_t)` casts of `min_value` /
`max_value`).  The `uint8_t` cast of the mask is a no-op because
`bit_length < 8` holds in that branch. -/
def extract_uint8 (can_data : Nat → Nat) (mapping : ParamMapping) : Nat :=
  if mapping.data_byte_index > 7 then 0
  else
    let raw0 := can_data mapping.data_byte_index % 256
    let raw1 :=
      if mapping.bit_length < 8 then
        (raw0 >>> mapping.bit_offset) &&& ((1 <<< mapping.bit_length) - 1)
      else raw0
    let raw2 := if raw1 < mapping.min_value then mapping.min_value % 256 else raw1
    if raw2 > mapping.max_value then mapping.max_value % 256 else raw2

/-- extract_uint16 from src/src/actions/param_mapping.h: bounds check
(`data_byte_index > 6` fails), little-endian assembly of two bytes (narrowed
to `uint16_t`), then clamping with `(uint16_t)` casts. -/
def extract_uint16 (can_data : Nat → Nat) (mapping : ParamMapping) : Nat :=
  if mapping.data_byte_index > 6 then 0
  else
    let value0 :=
      ((can_data mapping.data_byte_index % 256) |||
        ((can_data (mapping.data_byte_index + 1) % 256) <<< 8)) % 2 ^ 16
    let value1 := if value0 < mapping.min_value then mapping.min_value % 2 ^ 16 else value0
    if value1 > mapping.max_value then mapping.max_value % 2 ^ 16 else value1

/-- extract_int8 from src/src/actions/param_mapping.h: bounds check, the
`(int8_t)` reinterpretation of the byte, then a signed clamp against the
`(int8_t)` casts of `min_value` / `max_value`.  Note: unlike `extract_uint8`,
there is no bit-field isolation step. -/
def extract_int8 (can_data : Nat → Nat) (mapping : ParamMapping) : Int :=
  if mapping.data_byte_index > 7 then 0
  else
    let value0 := toSigned8 (can_data mapping.data_byte_index)
    let lo := toSigned8 mapping.min_value
    let hi := toSigned8 mapping.max_value
    let value1 := if value0 < lo then lo else value0
    if value1 > hi then hi else value1

/-- Reinterpretation of a 16-bit value as a signed `int16_t`. -/
def toSigned16 (b : Nat) : Int :=
  if b % 2 ^ 16 < 2 ^ 15 then (Int.ofNat (b % 2 ^ 16)) else (Int.ofNat (b % 2 ^ 16)) - 2 ^ 16

/-- extract_int16 from src/src/actions/param_mapping.h: bounds check,
little-endian assembly reinterpreted as `int16_t`, then a signed clamp. -/
def extract_int16 (can_data : Nat → Nat) (mapping : ParamMapping) : Int :=
  if mapping.data_byte_index > 6 then 0
  else
    let value0 :=
      toSigned16 ((can_data mapping.data_byte_index % 256) |||
        ((can_data (mapping.data_byte_index + 1) % 256) <<< 8))
    let lo := toSigned16 mapping.min_value
    let hi := toSigned16 mapping.max_value
    let value1 := if value0 < lo then lo else value0
    if value1 > hi then hi else value1

/-- extract_uint32 from src/src/actions/param_mapping.h: bounds check
(`data_byte_index > 4` fails), little-endian assembly of four bytes, then
clamping against `min_value` / `max_value` (already `uint32_t`). -/
def extract_uint32 (can_data : Nat → Nat) (mapping : ParamMapping) : Nat :=
  if mapping.data_byte_index > 4 then 0
  else
    let value0 :=
      ((can_data mapping.data_byte_index % 256) |||
        ((can_data (mapping.data_byte_index + 1) % 256) <<< 8) |||
        ((can_data (mapping.data_byte_index + 2) % 256) <<< 16) |||
        ((can_data (mapping.data_byte_index + 3) % 256) <<< 24)) % 2 ^ 32
    let value1 := if value0 < mapping.min_value then mapping.min_value else value0
    if value1 > mapping.max_value then mapping.max_value else value1

-- ===========================================================================
-- Pin allocation (src/src/actions/pin_manager.cpp)
-- ===========================================================================

/-- PinMode from src/src/actions/pin_manager.h. -/
inductive PinMode where
  | PINMODE_UNUSED
  | PINMODE_GPIO_INPUT
  | PINMODE_GPIO_OUTPUT
  | PINMODE_PWM
  | PINMODE_ADC
  | PINMODE_DAC
  | PINMODE_I2C_SDA
  | PINMODE_I2C_SCL
  | PINMODE_SPI_MOSI
  | PINMODE_SPI_MISO
  | PINMODE_SPI_SCK
  | PINMODE_SPI_CS
  | PINMODE_RESERVED
deriving DecidableEq, Fintype

export PinMode (PINMODE_UNUSED PINMODE_GPIO_INPUT PINMODE_GPIO_OUTPUT PINMODE_PWM
  PINMODE_ADC PINMODE_DAC PINMODE_RESERVED)

/-- MAX_PINS from src/src/actions/pin_manager.h. -/
def MAX_PINS : Nat := 32

/-- PinManager state: the per-pin usage map (entries at indices ≥ MAX_PINS are
never read, every access being guarded by `is_valid_pin`). -/
structure PinManager where
  usage_map : Nat → PinMode

/-- PinManager::is_valid_pin. -/
def is_valid_pin (pin : Nat) : Bool :=
  decide (pin < MAX_PINS)

/-- PinManager::are_modes_compatible from src/src/actions/pin_manager.cpp,
mirroring the source's cascade of special cases. -/
def are_modes_compatible (current intended : PinMode) : Bool :=
  if current = intended then true
  else if current = PINMODE_GPIO_INPUT ∧ intended = PINMODE_ADC then true
  else if current = PINMODE_ADC ∧ intended = PINMODE_GPIO_INPUT then true
  else if current = PINMODE_GPIO_INPUT ∧ intended = PINMODE_GPIO_OUTPUT then true
  else if current = PINMODE_GPIO_OUTPUT ∧ intended = PINMODE_GPIO_INPUT then true
  else if current = PINMODE_RESERVED ∨ intended = PINMODE_RESERVED then false
  else false

/-- PinManager::allocate_pin from src/src/actions/pin_manager.cpp: reject
out-of-range pins, reserved pins, and incompatible different current modes;
otherwise record the new mode (the logging calls are I/O only). -/
def allocate_pin (pm : PinManager) (pin : Nat) (mode : PinMode) : PinManager × Bool :=
  if ¬ is_valid_pin pin then (pm, false)
  else
    let current := pm.usage_map pin
    if current = PINMODE_RESERVED then (pm, false)
    else if current ≠ PINMODE_UNUSED ∧ current ≠ mode ∧
        ¬ are_modes_compatible current mode then (pm, false)
    else
      ({ usage_map := fun p => if p = pin then mode else pm.usage_map p }, true)

/-- PinManager::is_available from src/src/actions/pin_manager.cpp: a const
(read-only) probe; in this embedding it returns only a Bool, reflecting that
the C++ method cannot modify the allocator state. -/
def is_available (pm : PinManager) (pin : Nat) (intended_mode : PinMode) : Bool :=
  if ¬ is_valid_pin pin then false
  else
    let current := pm.usage_map pin
    if current = PINMODE_RESERVED then false
    else if current = PINMODE_UNUSED then true
    else decide (current = intended_mode) || are_modes_compatible current intended_mode

-- ===========================================================================
-- ActionDataBuffer (src/src/actions/action_data_buffer.cpp)
-- ===========================================================================

/-- ActionDataBuffer state: the 8-byte scratch buffer and the per-slot
validity flags (indices ≥ 8 are never touched by the guarded operations). -/
structure ActionDataBuffer where
  buffer : Nat → Nat
  slot_used : Nat → Bool

/-- ActionDataBuffer::is_valid_access from src/src/actions/action_data_buffer.h. -/
def is_valid_access (slot length : Nat) : Bool :=
  decide (slot < 8) && decide (length > 0) && decide (slot + length ≤ 8)

/-- ActionDataBuffer::write from src/src/actions/action_data_buffer.cpp:
validate, then copy `length` bytes to `buffer_[slot..]` and mark those slots
used.  The source `data` pointer is modelled as a total function (the null
check rejects only a null pointer, which has no counterpart here). -/
def ActionDataBuffer.write (buf : ActionDataBuffer) (slot : Nat) (data : Nat → Nat)
    (length : Nat) : ActionDataBuffer × Bool :=
  if ¬ is_valid_access slot length then (buf, false)
  else
    ({ buffer := fun i => if slot ≤ i ∧ i < slot + length then data (i - slot) else buf.buffer i
       slot_used := fun i => if slot ≤ i ∧ i < slot + length then true else buf.slot_used i },
      true)

/-- ActionDataBuffer::get_used_length: index of the highest used slot plus
one, or 0 when no slot is used (the C code scans downward from slot 7). -/
def get_used_length (buf : ActionDataBuffer) : Nat :=
  let rec scan : Nat → Nat
    | 0 => 0
    | n + 1 => if buf.slot_used n then n + 1 else scan n
  scan 8

-- ===========================================================================
-- ActionDefinition registry and platform hooks
-- ===========================================================================

/-- ActionDefinition from src/src/actions/param_mapping.h: the per-kind,
per-platform descriptor.  Only the fields read by the dispatch path
(`param_count` and the `param_map` array) are modelled; the descriptive
strings are omitted. -/
structure ActionDefinition where
  action : ActionType
  param_count : Nat
  param_map : Nat → ParamMapping

/-- The virtual methods of ActionManagerBase implemented per platform,
together with the injected CAN interface (`can_interface_->is_ready()` and
`send_message`), modelled as an abstract record of hooks. -/
structure PlatformHooks where
  get_action_definition : ActionType → Option ActionDefinition
  execute_gpio_action : ActionType → Nat → Bool
  execute_pwm_action : Nat → Nat → Bool
  execute_neopixel_action : Nat → Nat → Nat → Nat → Bool
  is_action_supported : ActionType → Bool
  can_ready : Bool
  send_message : CANMessage → Bool

-- ===========================================================================
-- CAN send path (ActionManagerBase::execute_can_send_action)
-- ===========================================================================

/-- ActionManagerBase::execute_can_send_action from
src/src/actions/action_manager_base.cpp: fail when the CAN interface is
absent or not ready, otherwise build the outgoing message (length capped at
8, extended iff the id exceeds 0x7FF, `memcpy` of `msg.length` bytes) and
hand it to the interface.  Bytes past the copied length are uninitialised
stack memory in C; they are modelled as 0. -/
def execute_can_send_action (plat : PlatformHooks) (now : Nat) (can_id : Nat)
    (data : Nat → Nat) (length : Nat) : Bool :=
  if ¬ plat.can_ready then false
  else
    let len := if length > 8 then 8 else length
    plat.send_message
      { id := can_id
        extended := decide (can_id > 0x7FF)
        remote := false
        length := len
        timestamp := now
        data := fun i => if i < len then data i else 0 }

-- ===========================================================================
-- Action dispatch (ActionManagerBase::execute_action)
-- ===========================================================================

/-- The byte source used by the from-frame parameter path:
`message.data + rule.param_data_offset` (C pointer arithmetic). -/
def frame_param_bytes (rule : ActionRule) (message : CANMessage) : Nat → Nat :=
  fun i => message.data (rule.param_data_offset + i)

/-- The GPIO-pin argument resolution in `execute_action`: from the frame via
the platform's ActionDefinition when `param_source == PARAM_FROM_CAN_DATA`
(failing when no definition with at least one parameter exists), otherwise
the rule's fixed `params.gpio.pin`. -/
def gpio_pin_arg (plat : PlatformHooks) (rule : ActionRule) (message : CANMessage) :
    Option Nat :=
  if rule.param_source = PARAM_FROM_CAN_DATA then
    match plat.get_action_definition rule.action with
    | some adef =>
      if adef.param_count ≥ 1 then
        some (extract_uint8 (frame_param_bytes rule message) (adef.param_map 0))
      else none
    | none => none
  else some rule.params.gpio.pin

/-- The PWM argument resolution in `execute_action` (pin and duty). -/
def pwm_args (plat : PlatformHooks) (rule : ActionRule) (message : CANMessage) :
    Option (Nat × Nat) :=
  if rule.param_source = PARAM_FROM_CAN_DATA then
    match plat.get_action_definition rule.action with
    | some adef =>
      if adef.param_count ≥ 2 then
        some (extract_uint8 (frame_param_bytes rule message) (adef.param_map 0),
          extract_uint8 (frame_param_bytes rule message) (adef.param_map 1))
      else none
    | none => none
  else some (rule.params.pwm.pin, rule.params.pwm.duty)

/-- The NeoPixel argument resolution in `execute_action` (r, g, b, brightness). -/
def neopixel_args (plat : PlatformHooks) (rule : ActionRule) (message : CANMessage) :
    Option (Nat × Nat × Nat × Nat) :=
  if rule.param_source = PARAM_FROM_CAN_DATA then
    match plat.get_action_definition rule.action with
    | some adef =>
      if adef.param_count ≥ 4 then
        some (extract_uint8 (frame_param_bytes rule message) (adef.param_map 0),
          extract_uint8 (frame_param_bytes rule message) (adef.param_map 1),
          extract_uint8 (frame_param_bytes rule message) (adef.param_map 2),
          extract_uint8 (frame_param_bytes rule message) (adef.param_map 3))
      else none
    | none => none
  else
    some (rule.params.neopixel.r, rule.params.neopixel.g, rule.params.neopixel.b,
      rule.params.neopixel.brightness)

/-- ActionManagerBase::execute_action from
src/src/actions/action_manager_base.cpp: the switch over the rule's action
kind.  The `ACTION_CAN_SEND_PERIODIC` case runs the same
`execute_can_send_action` call as `ACTION_CAN_SEND` and returns; it does not
touch the rule (the rule is taken by const reference).  Kinds with no case
fall to the default and fail. -/
def execute_action (plat : PlatformHooks) (now : Nat) (rule : ActionRule)
    (message : CANMessage) : Bool :=
  match rule.action with
  | ACTION_GPIO_SET =>
    (match gpio_pin_arg plat rule message with
     | some pin => plat.execute_gpio_action rule.action pin
     | none => false)
  | ACTION_GPIO_CLEAR =>
    (match gpio_pin_arg plat rule message with
     | some pin => plat.execute_gpio_action rule.action pin
     | none => false)
  | ACTION_GPIO_TOGGLE =>
    (match gpio_pin_arg plat rule message with
     | some pin => plat.execute_gpio_action rule.action pin
     | none => false)
  | ACTION_PWM_SET =>
    (match pwm_args plat rule message with
     | some (pin, duty) => plat.execute_pwm_action pin duty
     | none => false)
  | ACTION_NEOPIXEL_COLOR =>
    (match neopixel_args plat rule message with
     | some (r, g, b, brightness) => plat.execute_neopixel_action r g b brightness
     | none => false)
  | ACTION_NEOPIXEL_OFF => plat.execute_neopixel_action 0 0 0 0
  | ACTION_CAN_SEND =>
    execute_can_send_action plat now rule.params.can_send.can_id
      rule.params.can_send.data rule.params.can_send.length
  | ACTION_CAN_SEND_PERIODIC =>
    execute_can_send_action plat now rule.params.can_send.can_id
      rule.params.can_send.data rule.params.can_send.length
  | _ => false

-- ===========================================================================
-- Manager state, frame loop, scheduler loop (ActionManagerBase)
-- ===========================================================================

/-- The mutable state of ActionManagerBase: the fixed rule table (slot order
preserved as list order), the `initialized_` flag and the monotonic
`next_rule_id_` counter. -/
structure ManagerState where
  rules : List ActionRule
  initialized : Bool
  next_rule_id : Nat

/-- The body of the `check_and_execute` loop over the rule slots: each
occupied, enabled, matching rule is executed; the returned count adds 1 only
when execution succeeded.  The loop never writes the rule table, which the
threaded list makes explicit. -/
def check_rules_loop (plat : PlatformHooks) (now : Nat) (message : CANMessage) :
    List ActionRule → List ActionRule × Nat
  | [] => ([], 0)
  | rule :: rest =>
    let hit : Nat :=
      if rule.id ≠ 0 ∧ rule.enabled then
        if matches_rule message rule then
          if execute_action plat now rule message then 1 else 0
        else 0
      else 0
    let tail := check_rules_loop plat now message rest
    (rule :: tail.fst, hit + tail.snd)

/-- ActionManagerBase::check_and_execute from
src/src/actions/action_manager_base.cpp: returns 0 when uninitialised,
otherwise runs the loop (the per-rule serial report is I/O only). -/
def check_and_execute (plat : PlatformHooks) (now : Nat) (st : ManagerState)
    (message : CANMessage) : ManagerState × Nat :=
  if ¬ st.initialized then (st, 0)
  else
    let res := check_rules_loop plat now message st.rules
    ({ st with rules := res.fst }, res.snd)

/-- Wraparound-safe `uint32_t` subtraction `a - b` (the scheduler's
`current_ms - rule.last_execute_ms`). -/
def u32_sub (a b : Nat) : Nat :=
  (a % 2 ^ 32 + (2 ^ 32 - b % 2 ^ 32)) % 2 ^ 32

/-- The body of the `update_periodic` loop for one slot: skip empty, disabled,
non-periodic or zero-interval rules; when the interval has elapsed, run the
CAN send and — only on success — stamp `last_execute_ms`, bump
`execute_count` (a `uint32_t` increment) and count the dispatch. -/
def periodic_step (plat : PlatformHooks) (now : Nat) (rule : ActionRule) :
    ActionRule × Nat :=
  if rule.id = 0 ∨ ¬ rule.enabled then (rule, 0)
  else if rule.action ≠ ACTION_CAN_SEND_PERIODIC then (rule, 0)
  else
    let interval := rule.params.can_send.interval_ms
    if interval = 0 then (rule, 0)
    else if u32_sub now rule.last_execute_ms ≥ interval then
      if execute_can_send_action plat now rule.params.can_send.can_id
          rule.params.can_send.data rule.params.can_send.length then
        ({ rule with
            last_execute_ms := now
            execute_count := (rule.execute_count + 1) % 2 ^ 32 }, 1)
      else (rule, 0)
    else (rule, 0)

/-- The `update_periodic` loop over the rule slots. -/
def periodic_loop (plat : PlatformHooks) (now : Nat) :
    List ActionRule → List ActionRule × Nat
  | [] => ([], 0)
  | rule :: rest =>
    let head := periodic_step plat now rule
    let tail := periodic_loop plat now rest
    (head.fst :: tail.fst, head.snd + tail.snd)

/-- ActionManagerBase::update_periodic from
src/src/actions/action_manager_base.cpp, with `millis()` passed in as `now`. -/
def update_periodic (plat : PlatformHooks) (now : Nat) (st : ManagerState) :
    ManagerState × Nat :=
  if ¬ st.initialized then (st, 0)
  else
    let res := periodic_loop plat now st.rules
    ({ st with rules := res.fst }, res.snd)

-- ===========================================================================
-- Rule store (add / remove / get / count)
-- ===========================================================================

/-- ActionManagerBase::find_empty_slot: index of the first slot whose id is 0. -/
def find_empty_slot : List ActionRule → Option Nat
  | [] => none
  | rule :: rest =>
    if rule.id = 0 then some 0 else (find_empty_slot rest).map (· + 1)

/-- ActionManagerBase::find_rule_index: index of the first slot holding
`rule_id`. -/
def find_rule_index : List ActionRule → Nat → Option Nat
  | [], _ => none
  | rule :: rest, rule_id =>
    if rule.id = rule_id then some 0 else (find_rule_index rest rule_id).map (· + 1)

/-- ActionManagerBase::add_rule from src/src/actions/action_manager_base.cpp:
reject when uninitialised, when the kind is unsupported on this platform, or
when no slot is free; auto-assign `next_rule_id_++` (a `uint8_t` increment,
re-seeded to 1 when it wraps to 0) when the caller passes id 0; store the
rule and return its id (`save_rules()` delegates to external persistence). -/
def add_rule (plat : PlatformHooks) (st : ManagerState) (rule : ActionRule) :
    ManagerState × Nat :=
  if ¬ st.initialized then (st, 0)
  else if ¬ plat.is_action_supported rule.action then (st, 0)
  else
    match find_empty_slot st.rules with
    | none => (st, 0)
    | some slot =>
      if rule.id = 0 then
        let new_id := st.next_rule_id
        let bumped := (st.next_rule_id + 1) % 256
        let next := if bumped = 0 then 1 else bumped
        ({ st with
            rules := st.rules.set slot { rule with id := new_id }
            next_rule_id := next }, new_id)
      else
        ({ st with rules := st.rules.set slot rule }, rule.id)

/-- ActionManagerBase::remove_rule from
src/src/actions/action_manager_base.cpp: clear the found slot back to the
all-zero unused sentinel. -/
def remove_rule (st : ManagerState) (rule_id : Nat) : ManagerState × Bool :=
  match find_rule_index st.rules rule_id with
  | none => (st, false)
  | some i => ({ st with rules := st.rules.set i empty_rule }, true)

/-- ActionManagerBase::get_rule: the slot found by `find_rule_index`, if any. -/
def get_rule (st : ManagerState) (rule_id : Nat) : Option ActionRule :=
  match find_rule_index st.rules rule_id with
  | none => none
  | some i => st.rules.get? i

/-- ActionManagerBase::get_rule_count: the number of occupied slots. -/
def get_rule_count (st : ManagerState) : Nat :=
  st.rules.countP (fun r => decide (r.id ≠ 0))

-- ===========================================================================
-- Specification-side definitions (formalisations of the spec's wording,
-- used to compare against the embedded code)
-- ===========================================================================

/-- The matching contract as the specification states it: masked CAN-ID
equality, and either `data_length = 0` (payload ignored) or a long-enough
frame whose first `data_length` bytes agree under the per-byte masks. -/
def matches_spec (message : CANMessage) (rule : ActionRule) : Prop :=
  (message.id &&& rule.can_id_mask) = (rule.can_id &&& rule.can_id_mask) ∧
  (rule.data_length = 0 ∨
    (rule.data_length ≤ message.length ∧
      ∀ i, i < rule.data_length →
        (message.data i &&& rule.data_mask i) = (rule.data i &&& rule.data_mask i)))

/-- The scheduler's dispatch condition as the specification states it: an
occupied, enabled `CanSendPeriodic` rule with a nonzero interval whose
interval has elapsed under wraparound-safe `uint32_t` subtraction. -/
def periodic_due (now : Nat) (rule : ActionRule) : Bool :=
  decide (rule.id ≠ 0) && rule.enabled &&
    decide (rule.action = ACTION_CAN_SEND_PERIODIC) &&
    decide (rule.params.can_send.interval_ms ≠ 0) &&
    decide (rule.params.can_send.interval_ms ≤ u32_sub now rule.last_execute_ms)

/-- The CAN send a periodic rule performs (shared by the frame-triggered and
scheduler-triggered dispatch paths). -/
def periodic_send_ok (plat : PlatformHooks) (now : Nat) (rule : ActionRule) : Bool :=
  execute_can_send_action plat now rule.params.can_send.can_id
    rule.params.can_send.data rule.params.can_send.length

/-- Bit-field isolation as the specification states it for the 8-bit
extractors: when `bit_length < 8`, mask with `(1 <<< bit_length) - 1` after
shifting by `bit_offset`. -/
def isolate_bits (mapping : ParamMapping) (raw : Nat) : Nat :=
  if mapping.bit_length < 8 then
    (raw >>> mapping.bit_offset) &&& ((1 <<< mapping.bit_length) - 1)
  else raw

/-- Unsigned clamping to `[min_value, max_value]` as the specification states
it. -/
def clamp_unsigned (mapping : ParamMapping) (v : Nat) : Nat :=
  if v < mapping.min_value then mapping.min_value
  else if v > mapping.max_value then mapping.max_value
  else v

/-- Signed clamping to `[min_value, max_value]` (both read as `int8_t`) as the
specification states it. -/
def clamp_signed (mapping : ParamMapping) (v : Int) : Int :=
  if v < toSigned8 mapping.min_value then toSigned8 mapping.min_value
  else if v > toSigned8 mapping.max_value then toSigned8 mapping.max_value
  else v

/-- The signed 8-bit extraction as the claim describes it: bounds check, bit
isolation when `bit_length < 8`, then the signed clamp.  Compared below with
the code's `extract_int8`, which performs no isolation. -/
def extract_int8_claim (can_data : Nat → Nat) (mapping : ParamMapping) : Int :=
  if mapping.data_byte_index > 7 then 0
  else
    clamp_signed mapping
      (toSigned8 (isolate_bits mapping (can_data mapping.data_byte_index % 256)))

-- ===========================================================================
-- Concrete sample objects (used by witnesses and counterexamples)
-- ===========================================================================

/-- A platform whose hooks all succeed and which declares no from-frame
action definitions. -/
def plat0 : PlatformHooks where
  get_action_definition := fun _ => none
  execute_gpio_action := fun _ _ => true
  execute_pwm_action := fun _ _ => true
  execute_neopixel_action := fun _ _ _ _ => true
  is_action_supported := fun _ => true
  can_ready := true
  send_message := fun _ => true

/-- A sample frame with id 0x100 and an all-zero 8-byte payload. -/
def msg0 : CANMessage where
  id := 0x100
  data := fun _ => 0
  length := 8
  extended := false
  remote := false
  timestamp := 0

/-- A catch-all periodic rule: zero ID mask and zero data length (matches
every frame), kind `ACTION_CAN_SEND_PERIODIC`, interval 100 ms, never yet
executed. -/
def rule_per : ActionRule :=
  { empty_rule with
      id := 1
      enabled := true
      action := ACTION_CAN_SEND_PERIODIC
      params :=
        { empty_rule.params with
            can_send := { can_id := 0x200, data := fun _ => 0, length := 2, interval_ms := 100 } } }

/-- A manager holding just the periodic catch-all rule. -/
def st1 : ManagerState where
  rules := [rule_per]
  initialized := true
  next_rule_id := 2

/-- A fixed-parameter GPIO rule submitted with id 0 (auto-assign). -/
def rule_z : ActionRule :=
  { empty_rule with
      enabled := true
      can_id := 0x222
      action := ACTION_GPIO_SET }

/-- A stored rule whose caller-supplied id is 1. -/
def rule_a : ActionRule :=
  { empty_rule with
      id := 1
      enabled := true
      can_id := 0x111
      action := ACTION_GPIO_SET }

/-- A store in which the auto-assign counter (1) collides with the stored
rule id 1 while an empty slot remains — reachable by adding a rule with a
caller-supplied id equal to the counter. -/
def st_dup : ManagerState where
  rules := [rule_a, empty_rule]
  initialized := true
  next_rule_id := 1

/-- A store with one free slot and a fresh auto-assign counter. -/
def st_w : ManagerState where
  rules := [empty_rule]
  initialized := true
  next_rule_id := 1

/-- The 8-byte payload whose bytes are all 16 (0x10). -/
def d16 : Nat → Nat := fun _ => 16

/-- A mapping selecting the upper nibble of byte 0 with full signed range
(`min_value` 128 reads back as `int8_t` -128, `max_value` 127 as 127). -/
def m_bits : ParamMapping where
  data_byte_index := 0
  bit_offset := 4
  bit_length := 4
  min_value := 128
  max_value := 127

/-- A mapping selecting the upper nibble of byte 0 with range [0, 127]. -/
def m_w : ParamMapping where
  data_byte_index := 0
  bit_offset := 4
  bit_length := 4
  min_value := 0
  max_value := 127

/-- A mapping with byte index 7 (out of bounds for 16- and 32-bit fields). -/
def m_oob : ParamMapping where
  data_byte_index := 7
  bit_offset := 0
  bit_length := 8
  min_value := 0
  max_value := 255

/-- An empty pin allocator (every pin unused). -/
def pm_unused : PinManager where
  usage_map := fun _ => PINMODE_UNUSED

/-- An all-zero 8-slot buffer with no valid slots. -/
def buf0 : ActionDataBuffer where
  buffer := fun _ => 0
  slot_used := fun _ => false

-- ===========================================================================
-- Supporting lemmas
-- ===========================================================================

/-- The data-comparison loop succeeds exactly when every compared byte agrees
under its mask. -/
theorem data_bytes_match_iff (message : CANMessage) (rule : ActionRule) (n : Nat) :
    data_bytes_match message rule n = true ↔
      ∀ i, i < n →
        (message.data i &&& rule.data_mask i) = (rule.data i &&& rule.data_mask i) := by
  induction n with
  | zero => simp [data_bytes_match]
  | succ n ih =>
    simp only [data_bytes_match, Bool.and_eq_true, decide_eq_true_eq, ih]
    constructor
    · rintro ⟨h1, h2⟩ i hi
      rcases Nat.lt_succ_iff_lt_or_eq.mp hi with hlt | rfl
      · exact h1 i hlt
      · exact h2
    · intro h
      exact ⟨fun i hi => h i (Nat.lt_succ_of_lt hi), h n (Nat.lt_succ_self n)⟩

/-- The data-comparison loop never reads the frame id. -/
theorem data_bytes_match_id_irrel (message : CANMessage) (rule : ActionRule)
    (a : Nat) (n : Nat) :
    data_bytes_match { message with id := a } rule n = data_bytes_match message rule n := by
  induction n with
  | zero => rfl
  | succ n ih => simp [data_bytes_match, ih]

-- ===========================================================================
-- C1
-- ===========================================================================

/-- C1: `matches_rule` returns true exactly when the masked CAN-ID comparison
holds and either `data_length = 0` (any payload, including short frames) or
the frame is long enough and every compared byte agrees under its mask; in
particular, with `can_id_mask = 0` the result does not depend on the frame id
(catch-all rules match every ID). -/
theorem matches_rule_correct (message : CANMessage) (rule : ActionRule) :
    (matches_rule message rule = true ↔ matches_spec message rule) ∧
    (rule.can_id_mask = 0 →
      ∀ a, matches_rule { message with id := a } rule = matches_rule message rule) := by
  constructor
  · unfold matches_rule matches_spec
    split_ifs with h1 h2 h3
    · simp only [false_iff]
      intro h
      exact h1 h.1
    · simp only [false_iff]
      push_neg at h1
      intro h
      rcases h.2 with h0 | ⟨hlen, _⟩
      · omega
      · omega
    · rw [data_bytes_match_iff]
      push_neg at h1 h3
      constructor
      · intro h
        exact ⟨h1, Or.inr ⟨h3, h⟩⟩
      · intro h
        rcases h.2 with h0 | ⟨_, hbytes⟩
        · omega
        · exact hbytes
    · push_neg at h1
      simp only [true_iff]
      exact ⟨h1, Or.inl (by omega)⟩
  · intro h0 a
    simp [matches_rule, h0, data_bytes_match_id_irrel]

/-- Witness for C1 at a concrete frame and catch-all rule. -/
theorem matches_rule_correct_witness :
    (matches_rule msg0 rule_per = true ↔ matches_spec msg0 rule_per) ∧
    (rule_per.can_id_mask = 0 →
      ∀ a, matches_rule { msg0 with id := a } rule_per = matches_rule msg0 rule_per) :=
  matches_rule_correct msg0 rule_per

-- ===========================================================================
-- C2
-- ===========================================================================

/-- One scheduler slot behaves as: dispatch exactly when due, and on a
successful send stamp the clock and bump the counter. -/
theorem periodic_step_eq (plat : PlatformHooks) (now : Nat) (rule : ActionRule) :
    periodic_step plat now rule =
      if periodic_due now rule && periodic_send_ok plat now rule then
        ({ rule with
            last_execute_ms := now
            execute_count := (rule.execute_count + 1) % 2 ^ 32 }, 1)
      else (rule, 0) := by
  unfold periodic_step periodic_due periodic_send_ok
  by_cases h1 : rule.id = 0
  · simp [h1]
  · by_cases h2 : rule.enabled
    · by_cases h3 : rule.action = ACTION_CAN_SEND_PERIODIC
      · by_cases h4 : rule.params.can_send.interval_ms = 0
        · simp [h1, h2, h3, h4]
        · by_cases h5 :
            rule.params.can_send.interval_ms ≤ u32_sub now rule.last_execute_ms
          · by_cases h6 : execute_can_send_action plat now rule.params.can_send.can_id
                rule.params.can_send.data rule.params.can_send.length
            · simp [h1, h2, h3, h4, ge_iff_le, h5, h6]
            · simp [h1, h2, h3, h4, ge_iff_le, h5, h6]
          · simp [h1, h2, h3, h4, ge_iff_le, h5]
      · simp [h1, h2, h3]
    · simp [h1, h2]

/-- The scheduler loop maps the per-slot behaviour over the table and counts
the dispatched-and-sent slots. -/
theorem periodic_loop_eq (plat : PlatformHooks) (now : Nat) (rules : List ActionRule) :
    periodic_loop plat now rules =
      (rules.map (fun r =>
          if periodic_due now r && periodic_send_ok plat now r then
            { r with
                last_execute_ms := now
                execute_count := (r.execute_count + 1) % 2 ^ 32 }
          else r),
        rules.countP (fun r => periodic_due now r && periodic_send_ok plat now r)) := by
  induction rules with
  | nil => rfl
  | cons a t ih =>
    unfold periodic_loop
    rw [periodic_step_eq, ih]
    by_cases h : (periodic_due now a && periodic_send_ok plat now a) = true
    · rw [Bool.and_eq_true] at h
      simp [h.1, h.2, List.countP_cons, Nat.add_comm]
    · rw [Bool.and_eq_true] at h
      simp [List.countP_cons, h]

/-- C2: with the manager initialised, a scheduler tick at `now` rewrites every
slot by the rule "an occupied, enabled `ACTION_CAN_SEND_PERIODIC` rule with a
nonzero interval whose interval has elapsed under wraparound `uint32_t`
subtraction, and whose CAN send succeeded, gets `last_execute_ms := now` and
`execute_count` bumped by exactly one (`uint32_t` arithmetic)" — all other
slots are untouched — and returns the number of slots so dispatched.  With
`interval_ms = 100` and `last_execute_ms = 0` the due condition holds at
`now = 100` and fails at `now = 99`; rules with `interval_ms = 0` are never
due. -/
theorem update_periodic_correct (plat : PlatformHooks) (now : Nat) (st : ManagerState)
    (h : st.initialized = true) :
    (update_periodic plat now st).fst.rules =
      st.rules.map (fun r =>
        if periodic_due now r && periodic_send_ok plat now r then
          { r with
              last_execute_ms := now
              execute_count := (r.execute_count + 1) % 2 ^ 32 }
        else r) ∧
    (update_periodic plat now st).snd =
      st.rules.countP (fun r => periodic_due now r && periodic_send_ok plat now r) := by
  unfold update_periodic
  rw [periodic_loop_eq]
  simp [h]

/-- Witness for C2: the catch-all periodic rule (interval 100, last execution
at 0) at tick 100, where the dispatch goes through; the instantiation also
records that the same rule is not due at tick 99 and that a zero-interval
variant is never due. -/
theorem update_periodic_correct_witness :
    st1.initialized = true ∧
    ((update_periodic plat0 100 st1).fst.rules =
      st1.rules.map (fun r =>
        if periodic_due 100 r && periodic_send_ok plat0 100 r then
          { r with
              last_execute_ms := 100
              execute_count := (r.execute_count + 1) % 2 ^ 32 }
        else r) ∧
    (update_periodic plat0 100 st1).snd =
      st1.rules.countP (fun r => periodic_due 100 r && periodic_send_ok plat0 100 r)) ∧
    periodic_due 100 rule_per = true ∧
    periodic_due 99 rule_per = false :=
  ⟨rfl, update_periodic_correct plat0 100 st1 rfl, by decide, by decide⟩

-- ===========================================================================
-- C3
-- ===========================================================================

/-- The frame-processing loop never writes the rule table. -/
theorem check_rules_loop_fst (plat : PlatformHooks) (now : Nat) (message : CANMessage)
    (rules : List ActionRule) :
    (check_rules_loop plat now message rules).fst = rules := by
  induction rules with
  | nil => rfl
  | cons a t ih => simp [check_rules_loop, ih]

/-- C3 (amended): a frame-triggered dispatch of an `ACTION_CAN_SEND_PERIODIC`
rule runs exactly the scheduler's CAN-send path (`execute_can_send_action` on
the rule's stored id, bytes and length), but — unlike a scheduler-driven
dispatch — `check_and_execute` leaves every rule's `last_execute_ms` and
`execute_count` (indeed the whole rule table) unchanged; only
`update_periodic` updates that bookkeeping. -/
theorem can_send_periodic_same_path (plat : PlatformHooks) (now : Nat)
    (rule : ActionRule) (message : CANMessage)
    (h : rule.action = ACTION_CAN_SEND_PERIODIC) :
    execute_action plat now rule message =
      execute_can_send_action plat now rule.params.can_send.can_id
        rule.params.can_send.data rule.params.can_send.length ∧
    ∀ st : ManagerState, (check_and_execute plat now st message).fst = st := by
  constructor
  · unfold execute_action
    rw [h]
  · intro st
    obtain ⟨rules, initialized, next_rule_id⟩ := st
    unfold check_and_execute
    by_cases hinit : initialized = true
    · subst hinit
      simp [check_rules_loop_fst]
    · simp [hinit]

/-- Witness for C3 (amended) at the concrete periodic rule and frame. -/
theorem can_send_periodic_same_path_witness :
    rule_per.action = ACTION_CAN_SEND_PERIODIC ∧
    (execute_action plat0 100 rule_per msg0 =
      execute_can_send_action plat0 100 rule_per.params.can_send.can_id
        rule_per.params.can_send.data rule_per.params.can_send.length ∧
    ∀ st : ManagerState, (check_and_execute plat0 100 st msg0).fst = st) :=
  ⟨rfl, can_send_periodic_same_path plat0 100 rule_per msg0 rfl⟩

/-- Counterexample to C3 as stated: the catch-all periodic rule is dispatched
by `check_and_execute` on a matching frame (the returned count is 1), yet its
`last_execute_ms` / `execute_count` stay (0, 0), whereas the scheduler-driven
dispatch of the same store at the same instant updates them to (100, 1). -/
theorem frame_dispatch_skips_bookkeeping :
    (check_and_execute plat0 100 st1 msg0).snd = 1 ∧
    ((check_and_execute plat0 100 st1 msg0).fst.rules.head?.map
      (fun r => (r.last_execute_ms, r.execute_count))) = some (0, 0) ∧
    ((update_periodic plat0 100 st1).fst.rules.head?.map
      (fun r => (r.last_execute_ms, r.execute_count))) = some (100, 1) := by
  decide

-- ===========================================================================
-- C4
-- ===========================================================================

/-- Reducing a byte modulo 256 before the `int8_t` reinterpretation changes
nothing. -/
theorem toSigned8_mod (b : Nat) : toSigned8 (b % 256) = toSigned8 b := by
  unfold toSigned8
  rw [Nat.mod_mod_of_dvd b dvd_rfl]

/-- C4 (amended): for an in-bounds byte index and a well-formed range
(`min_value ≤ max_value`, both representable), `extract_uint8` is exactly
"isolate the bit field when `bit_length < 8`, then clamp unsigned", while
`extract_int8` is "reinterpret the byte as `int8_t`, then clamp signed" —
with NO bit-field isolation step, contrary to the claim. -/
theorem extract8_clamp_isolation (can_data : Nat → Nat) (mapping : ParamMapping)
    (hidx : mapping.data_byte_index < 8)
    (hmm : mapping.min_value ≤ mapping.max_value)
    (hmax : mapping.max_value < 256)
    (hs : toSigned8 mapping.min_value ≤ toSigned8 mapping.max_value) :
    extract_uint8 can_data mapping =
      clamp_unsigned mapping (isolate_bits mapping (can_data mapping.data_byte_index % 256)) ∧
    extract_int8 can_data mapping =
      clamp_signed mapping (toSigned8 (can_data mapping.data_byte_index % 256)) := by
  constructor
  · simp only [extract_uint8, clamp_unsigned, isolate_bits]
    split_ifs <;> omega
  · simp only [extract_int8, clamp_signed,
      toSigned8_mod (can_data mapping.data_byte_index)]
    split_ifs <;> omega

/-- Witness for C4 (amended): the upper-nibble mapping with range [0, 127] on
the all-16 payload. -/
theorem extract8_clamp_isolation_witness :
    m_w.data_byte_index < 8 ∧ m_w.min_value ≤ m_w.max_value ∧ m_w.max_value < 256 ∧
    toSigned8 m_w.min_value ≤ toSigned8 m_w.max_value ∧
    (extract_uint8 d16 m_w =
      clamp_unsigned m_w (isolate_bits m_w (d16 m_w.data_byte_index % 256)) ∧
    extract_int8 d16 m_w =
      clamp_signed m_w (toSigned8 (d16 m_w.data_byte_index % 256))) :=
  ⟨by decide, by decide, by decide, by decide,
    extract8_clamp_isolation d16 m_w (by decide) (by decide) (by decide) (by decide)⟩

/-- Counterexample to C4 as stated: on the byte 0x10 with the upper-nibble
mapping (`bit_offset = 4`, `bit_length = 4`), the claimed
isolate-then-clamp signed extraction yields 1, but the code's `extract_int8`
ignores the bit field and returns 16. -/
theorem extract_int8_skips_isolation :
    extract_int8 d16 m_bits = 16 ∧ extract_int8_claim d16 m_bits = 1 ∧
    extract_int8 d16 m_bits ≠ extract_int8_claim d16 m_bits := by
  refine ⟨by decide, by decide, by decide⟩

-- ===========================================================================
-- C5
-- ===========================================================================

/-- C5: every extraction function answers an out-of-bounds byte index for its
field width with the type's zero value — no error is signalled: index > 7 for
the 8-bit extractors, index > 6 for the 16-bit ones, index > 4 for the 32-bit
one. -/
theorem extract_out_of_bounds_zero (can_data : Nat → Nat) (mapping : ParamMapping) :
    (mapping.data_byte_index > 7 →
      extract_uint8 can_data mapping = 0 ∧ extract_int8 can_data mapping = 0) ∧
    (mapping.data_byte_index > 6 →
      extract_uint16 can_data mapping = 0 ∧ extract_int16 can_data mapping = 0) ∧
    (mapping.data_byte_index > 4 → extract_uint32 can_data mapping = 0) := by
  refine ⟨fun h => ⟨?_, ?_⟩, fun h => ⟨?_, ?_⟩, fun h => ?_⟩ <;>
    simp [extract_uint8, extract_int8, extract_uint16, extract_int16, extract_uint32, h]

/-- Witness for C5 at byte index 7 on the all-16 payload (out of bounds for
the 16- and 32-bit widths). -/
theorem extract_out_of_bounds_zero_witness :
    (extract_uint16 d16 m_oob = 0 ∧ extract_int16 d16 m_oob = 0) ∧
    extract_uint32 d16 m_oob = 0 :=
  ⟨(extract_out_of_bounds_zero d16 m_oob).2.1 (by decide),
    (extract_out_of_bounds_zero d16 m_oob).2.2 (by decide)⟩

-- ===========================================================================
-- C6
-- ===========================================================================

/-- C6: `allocate_pin` succeeds exactly when the pin is in range, not
reserved, and currently unused, already in the requested mode, or in a
compatible mode; success records the requested mode for the pin and failure
leaves the allocator untouched.  Between distinct modes, compatibility is
symmetric and holds exactly for GPIO-input with ADC and GPIO-input with
GPIO-output; every pair of distinct modes involving `PINMODE_RESERVED` is
incompatible. -/
theorem allocate_pin_correct (pm : PinManager) (pin : Nat) (mode : PinMode) :
    ((allocate_pin pm pin mode).snd = true ↔
      (pin < MAX_PINS ∧ pm.usage_map pin ≠ PINMODE_RESERVED ∧
        (pm.usage_map pin = PINMODE_UNUSED ∨ pm.usage_map pin = mode ∨
          are_modes_compatible (pm.usage_map pin) mode = true))) ∧
    ((allocate_pin pm pin mode).snd = true →
      (allocate_pin pm pin mode).fst.usage_map pin = mode) ∧
    ((allocate_pin pm pin mode).snd = false → (allocate_pin pm pin mode).fst = pm) ∧
    (∀ m1 m2 : PinMode, m1 ≠ m2 →
      (are_modes_compatible m1 m2 = true ↔
        ((m1 = PINMODE_GPIO_INPUT ∧ m2 = PINMODE_ADC) ∨
          (m1 = PINMODE_ADC ∧ m2 = PINMODE_GPIO_INPUT) ∨
          (m1 = PINMODE_GPIO_INPUT ∧ m2 = PINMODE_GPIO_OUTPUT) ∨
          (m1 = PINMODE_GPIO_OUTPUT ∧ m2 = PINMODE_GPIO_INPUT)))) ∧
    (∀ m1 m2 : PinMode, are_modes_compatible m1 m2 = are_modes_compatible m2 m1) := by
  refine ⟨?_, ?_, ?_, by decide, by decide⟩ <;>
  · unfold allocate_pin is_valid_pin
    by_cases h1 : pin < MAX_PINS <;>
      by_cases h2 : pm.usage_map pin = PINMODE_RESERVED <;>
        by_cases h3 : are_modes_compatible (pm.usage_map pin) mode = true <;>
          by_cases h4 : pm.usage_map pin = PINMODE_UNUSED <;>
            by_cases h5 : pm.usage_map pin = mode <;>
              simp_all

/-- Witness for C6, replaying the claim's example: on a fresh allocator,
`allocate_pin 5 GPIO_OUTPUT` succeeds; afterwards `allocate_pin 5 PWM` fails
while `allocate_pin 5 GPIO_INPUT` succeeds (compatible); the instantiated
characterisation is applied at the PWM request. -/
theorem allocate_pin_correct_witness :
    (allocate_pin pm_unused 5 PINMODE_GPIO_OUTPUT).snd = true ∧
    (allocate_pin (allocate_pin pm_unused 5 PINMODE_GPIO_OUTPUT).fst 5 PINMODE_PWM).snd
      = false ∧
    (allocate_pin (allocate_pin pm_unused 5 PINMODE_GPIO_OUTPUT).fst 5
      PINMODE_GPIO_INPUT).snd = true ∧
    (((allocate_pin (allocate_pin pm_unused 5 PINMODE_GPIO_OUTPUT).fst 5
        PINMODE_PWM).snd = true ↔
      (5 < MAX_PINS ∧
        (allocate_pin pm_unused 5 PINMODE_GPIO_OUTPUT).fst.usage_map 5 ≠ PINMODE_RESERVED ∧
        ((allocate_pin pm_unused 5 PINMODE_GPIO_OUTPUT).fst.usage_map 5 = PINMODE_UNUSED ∨
          (allocate_pin pm_unused 5 PINMODE_GPIO_OUTPUT).fst.usage_map 5 = PINMODE_PWM ∨
          are_modes_compatible
            ((allocate_pin pm_unused 5 PINMODE_GPIO_OUTPUT).fst.usage_map 5)
            PINMODE_PWM = true))) ∧
    ((allocate_pin (allocate_pin pm_unused 5 PINMODE_GPIO_OUTPUT).fst 5
        PINMODE_PWM).snd = true →
      (allocate_pin (allocate_pin pm_unused 5 PINMODE_GPIO_OUTPUT).fst 5
        PINMODE_PWM).fst.usage_map 5 = PINMODE_PWM) ∧
    ((allocate_pin (allocate_pin pm_unused 5 PINMODE_GPIO_OUTPUT).fst 5
        PINMODE_PWM).snd = false →
      (allocate_pin (allocate_pin pm_unused 5 PINMODE_GPIO_OUTPUT).fst 5
        PINMODE_PWM).fst = (allocate_pin pm_unused 5 PINMODE_GPIO_OUTPUT).fst) ∧
    (∀ m1 m2 : PinMode, m1 ≠ m2 →
      (are_modes_compatible m1 m2 = true ↔
        ((m1 = PINMODE_GPIO_INPUT ∧ m2 = PINMODE_ADC) ∨
          (m1 = PINMODE_ADC ∧ m2 = PINMODE_GPIO_INPUT) ∨
          (m1 = PINMODE_GPIO_INPUT ∧ m2 = PINMODE_GPIO_OUTPUT) ∨
          (m1 = PINMODE_GPIO_OUTPUT ∧ m2 = PINMODE_GPIO_INPUT)))) ∧
    (∀ m1 m2 : PinMode, are_modes_compatible m1 m2 = are_modes_compatible m2 m1)) :=
  ⟨by decide, by decide, by decide,
    allocate_pin_correct (allocate_pin pm_unused 5 PINMODE_GPIO_OUTPUT).fst 5 PINMODE_PWM⟩

-- ===========================================================================
-- C7
-- ===========================================================================

/-- C7: the read-only probe `is_available` answers exactly what `allocate_pin`
would decide in the same state; `is_available` is state-preserving by
construction (it is a const method, embedded as a pure predicate that returns
no state). -/
theorem is_available_iff_allocate (pm : PinManager) (pin : Nat) (intended_mode : PinMode) :
    is_available pm pin intended_mode = (allocate_pin pm pin intended_mode).snd := by
  unfold is_available allocate_pin is_valid_pin
  by_cases h1 : pin < MAX_PINS <;>
    by_cases h2 : pm.usage_map pin = PINMODE_RESERVED <;>
      by_cases h3 : are_modes_compatible (pm.usage_map pin) intended_mode = true <;>
        by_cases h4 : pm.usage_map pin = PINMODE_UNUSED <;>
          by_cases h5 : pm.usage_map pin = intended_mode <;>
            simp_all

/-- Witness for C7 at a concrete allocator state and request. -/
theorem is_available_iff_allocate_witness :
    is_available (allocate_pin pm_unused 5 PINMODE_GPIO_OUTPUT).fst 5 PINMODE_PWM =
      (allocate_pin (allocate_pin pm_unused 5 PINMODE_GPIO_OUTPUT).fst 5
        PINMODE_PWM).snd :=
  is_available_iff_allocate (allocate_pin pm_unused 5 PINMODE_GPIO_OUTPUT).fst 5 PINMODE_PWM

-- ===========================================================================
-- C8
-- ===========================================================================

/-- C8 (amended): a buffered write succeeds exactly when the slot is in
range, the length is nonzero, and the write fits in the 8-byte buffer; a
rejected write (in particular any write with `slot ≥ 8` or
`slot + length > 8`, but also a zero-length write) leaves buffer contents
and validity flags completely unchanged, and a successful write marks
exactly slots `slot .. slot+length-1` valid, leaving every other slot's flag
and byte untouched. -/
theorem buffer_write_correct (buf : ActionDataBuffer) (slot : Nat) (data : Nat → Nat)
    (length : Nat) :
    ((buf.write slot data length).snd = true ↔
      (slot < 8 ∧ 1 ≤ length ∧ slot + length ≤ 8)) ∧
    ((buf.write slot data length).snd = false → (buf.write slot data length).fst = buf) ∧
    ((buf.write slot data length).snd = true →
      (∀ i, slot ≤ i → i < slot + length →
        (buf.write slot data length).fst.slot_used i = true ∧
        (buf.write slot data length).fst.buffer i = data (i - slot)) ∧
      (∀ i, ¬ (slot ≤ i ∧ i < slot + length) →
        (buf.write slot data length).fst.slot_used i = buf.slot_used i ∧
        (buf.write slot data length).fst.buffer i = buf.buffer i)) := by
  unfold ActionDataBuffer.write is_valid_access
  by_cases hv : slot < 8 ∧ length > 0 ∧ slot + length ≤ 8
  · simp only [hv.1, hv.2.1, hv.2.2, decide_eq_true_eq]
    refine ⟨?_, ?_, ?_⟩
    · simp [hv.1, hv.2.1, hv.2.2]
      omega
    · simp [hv.1, hv.2.1, hv.2.2]
    · intro _
      constructor
      · intro i hi1 hi2
        simp [hv.1, hv.2.1, hv.2.2, hi1, hi2]
      · intro i hi
        simp [hv.1, hv.2.1, hv.2.2, hi]
  · have hfail : ¬ (decide (slot < 8) && decide (length > 0) &&
        decide (slot + length ≤ 8)) = true := by
      simp only [Bool.and_eq_true, decide_eq_true_eq]
      tauto
    simp only [if_pos hfail]
    refine ⟨?_, ?_, ?_⟩
    · simp only [Bool.false_eq_true, false_iff]
      intro h
      exact hv ⟨h.1, h.2.1, h.2.2⟩
    · intro _
      trivial
    · intro h
      exact absurd h (by simp)

/-- Witness for C8 (amended): writing 3 bytes at slot 2 of the empty buffer. -/
theorem buffer_write_correct_witness :
    ((buf0.write 2 d16 3).snd = true ↔ (2 < 8 ∧ 1 ≤ 3 ∧ 2 + 3 ≤ 8)) ∧
    ((buf0.write 2 d16 3).snd = false → (buf0.write 2 d16 3).fst = buf0) ∧
    ((buf0.write 2 d16 3).snd = true →
      (∀ i, 2 ≤ i → i < 2 + 3 →
        (buf0.write 2 d16 3).fst.slot_used i = true ∧
        (buf0.write 2 d16 3).fst.buffer i = d16 (i - 2)) ∧
      (∀ i, ¬ (2 ≤ i ∧ i < 2 + 3) →
        (buf0.write 2 d16 3).fst.slot_used i = buf0.slot_used i ∧
        (buf0.write 2 d16 3).fst.buffer i = buf0.buffer i)) :=
  buffer_write_correct buf0 2 d16 3

/-- Counterexample to C8 as stated: the zero-length write at slot 3 neither
starts past the buffer (3 < 8) nor runs past it (3 + 0 ≤ 8), yet `write`
rejects it. -/
theorem buffer_write_rejects_zero_length :
    (buf0.write 3 d16 0).snd = false ∧ 3 < 8 ∧ 3 + 0 ≤ 8 := by
  refine ⟨by decide, by decide, by decide⟩

-- ===========================================================================
-- C10
-- ===========================================================================

/-- The frame loop counts exactly the occupied, enabled, matching rules whose
execution succeeded. -/
theorem check_rules_loop_snd (plat : PlatformHooks) (now : Nat) (message : CANMessage)
    (l : List ActionRule) :
    (check_rules_loop plat now message l).snd =
      l.countP (fun r => decide (r.id ≠ 0) && r.enabled && matches_rule message r &&
        execute_action plat now r message) := by
  induction l with
  | nil => rfl
  | cons a t ih =>
    unfold check_rules_loop
    rw [List.countP_cons]
    simp only [ih]
    by_cases h1 : a.id ≠ 0 ∧ a.enabled = true
    · by_cases h2 : matches_rule message a = true
      · by_cases h3 : execute_action plat now a message = true
        · simp [h1.1, h1.2, h2, h3, Nat.add_comm]
        · simp [h1.1, h1.2, h2, h3]
      · simp [h1, h2]
    · rw [if_neg h1]
      rcases Decidable.not_and_iff_or_not.mp h1 with h | h
      · simp [h]
      · simp [h]

/-- C10: with the manager initialised, `check_and_execute` returns exactly
the number of stored (id ≠ 0), enabled rules that match the frame AND whose
action execution succeeded — a matching rule whose dispatch fails is
evaluated but contributes nothing to the returned count. -/
theorem check_and_execute_counts (plat : PlatformHooks) (now : Nat) (st : ManagerState)
    (message : CANMessage) (h : st.initialized = true) :
    (check_and_execute plat now st message).snd =
      st.rules.countP (fun r => decide (r.id ≠ 0) && r.enabled &&
        matches_rule message r && execute_action plat now r message) := by
  unfold check_and_execute
  simp [h, check_rules_loop_snd]

/-- Witness for C10 at the one-rule store and the matching frame. -/
theorem check_and_execute_counts_witness :
    st1.initialized = true ∧
    (check_and_execute plat0 100 st1 msg0).snd =
      st1.rules.countP (fun r => decide (r.id ≠ 0) && r.enabled &&
        matches_rule msg0 r && execute_action plat0 100 r msg0) :=
  ⟨rfl, check_and_execute_counts plat0 100 st1 msg0 rfl⟩

-- ===========================================================================
-- C9: supporting list lemmas
-- ===========================================================================

/-- A store containing an empty slot has a first empty slot, and it holds a
rule with id 0. -/
theorem find_empty_slot_spec (l : List ActionRule) (h : ∃ r ∈ l, r.id = 0) :
    ∃ i r, find_empty_slot l = some i ∧ l.get? i = some r ∧ r.id = 0 := by
  induction l with
  | nil => simp at h
  | cons a t ih =>
    by_cases ha : a.id = 0
    · exact ⟨0, a, by simp [find_empty_slot, ha]⟩
    · obtain ⟨r, hr, hrid⟩ := h
      rcases List.mem_cons.mp hr with rfl | hr
      · exact absurd hrid ha
      · obtain ⟨i, r2, hfind, hget, hid⟩ := ih ⟨r, hr, hrid⟩
        exact ⟨i + 1, r2, by simp [find_empty_slot, ha, hfind], by simpa using hget, hid⟩

/-- Reading back the slot just written. -/
theorem list_get_set_self {α : Type} (l : List α) (i : Nat) (x : α) (h : i < l.length) :
    (l.set i x).get? i = some x := by
  induction l generalizing i with
  | nil => simp at h
  | cons a t ih =>
    cases i with
    | zero => rfl
    | succ n => simpa using ih n (by simpa using h)

/-- Setting one slot shifts `countP` by the difference between the old and
the new entry. -/
theorem countP_set_balance {α : Type} (p : α → Bool) (l : List α) (i : Nat) (x y : α)
    (h : l.get? i = some y) :
    (l.set i x).countP p + (if p y then 1 else 0) =
      l.countP p + (if p x then 1 else 0) := by
  induction l generalizing i with
  | nil => simp at h
  | cons a t ih =>
    cases i with
    | zero =>
      have hy : y = a := by simpa using h.symm
      subst hy
      simp only [List.set]
      rw [List.countP_cons, List.countP_cons]
      omega
    | succ n =>
      have hget : t.get? n = some y := by simpa using h
      simp only [List.set]
      rw [List.countP_cons, List.countP_cons]
      have := ih n hget
      omega

/-- Writing an entry the predicate accepts over one it rejects raises the
count by one. -/
theorem countP_set_incr {α : Type} (p : α → Bool) (l : List α) (i : Nat) (x y : α)
    (h : l.get? i = some y) (hx : p x = true) (hy : p y = false) :
    (l.set i x).countP p = l.countP p + 1 := by
  have hb := countP_set_balance p l i x y h
  rw [hx, hy] at hb
  simp at hb
  omega

/-- Writing an entry the predicate rejects over one it accepts lowers the
count by one. -/
theorem countP_set_decr {α : Type} (p : α → Bool) (l : List α) (i : Nat) (x y : α)
    (h : l.get? i = some y) (hx : p x = false) (hy : p y = true) :
    (l.set i x).countP p + 1 = l.countP p := by
  have hb := countP_set_balance p l i x y h
  rw [hx, hy] at hb
  simp at hb
  omega

/-- Looking up a fresh id after writing it into slot `i` finds slot `i`. -/
theorem find_rule_index_set (rid : Nat) (l : List ActionRule) (i : Nat) (x : ActionRule)
    (hall : ∀ r ∈ l, r.id ≠ rid) (hx : x.id = rid) (hi : i < l.length) :
    find_rule_index (l.set i x) rid = some i := by
  induction l generalizing i with
  | nil => simp at hi
  | cons a t ih =>
    cases i with
    | zero => simp [find_rule_index, hx]
    | succ n =>
      have ha : a.id ≠ rid := hall a (List.mem_cons_self a t)
      have hrec := ih n (fun r hr => hall r (List.mem_cons_of_mem a hr))
        (by simpa using hi)
      simp [find_rule_index, ha, hrec]

-- ===========================================================================
-- C9
-- ===========================================================================

/-- C9 (amended): in an initialised store with a free slot, whose auto-assign
counter is a valid id (nonzero, below 256) not currently in use by any stored
rule, adding a platform-supported rule with id 0 returns that counter value —
a nonzero id in use by no stored rule — and advances the counter by one
(wrapping from 255 back to 1, skipping 0); reading the returned id back
yields the stored rule; and removing the returned id succeeds, clears the
slot to the unused sentinel, and takes `count` back down by exactly one.
Without the counter-freshness proviso the claim fails (see the id-collision
counterexample). -/
theorem add_rule_roundtrip (plat : PlatformHooks) (st : ManagerState) (rule : ActionRule)
    (hinit : st.initialized = true)
    (hsup : plat.is_action_supported rule.action = true)
    (hid : rule.id = 0)
    (hempty : ∃ r ∈ st.rules, r.id = 0)
    (hnz : st.next_rule_id ≠ 0)
    (hlt : st.next_rule_id < 256)
    (hfresh : ∀ r ∈ st.rules, r.id ≠ st.next_rule_id) :
    (add_rule plat st rule).snd = st.next_rule_id ∧
    (add_rule plat st rule).snd ≠ 0 ∧
    (∀ r ∈ st.rules, r.id ≠ (add_rule plat st rule).snd) ∧
    (add_rule plat st rule).fst.next_rule_id =
      (if st.next_rule_id = 255 then 1 else st.next_rule_id + 1) ∧
    get_rule (add_rule plat st rule).fst (add_rule plat st rule).snd =
      some { rule with id := st.next_rule_id } ∧
    get_rule_count (add_rule plat st rule).fst = get_rule_count st + 1 ∧
    (remove_rule (add_rule plat st rule).fst (add_rule plat st rule).snd).snd = true ∧
    get_rule_count
        (remove_rule (add_rule plat st rule).fst (add_rule plat st rule).snd).fst =
      get_rule_count st ∧
    (∃ i,
      find_rule_index (add_rule plat st rule).fst.rules (add_rule plat st rule).snd =
        some i ∧
      (remove_rule (add_rule plat st rule).fst
          (add_rule plat st rule).snd).fst.rules.get? i = some empty_rule) := by
  obtain ⟨slot, r0, hfind, hget, hr0⟩ := find_empty_slot_spec st.rules hempty
  have hslot : slot < st.rules.length := by
    by_contra hcon
    rw [List.get?_eq_none.mpr (by omega)] at hget
    exact Option.noConfusion hget
  have hadd : add_rule plat st rule =
      ({ st with
          rules := st.rules.set slot { rule with id := st.next_rule_id }
          next_rule_id :=
            if (st.next_rule_id + 1) % 256 = 0 then 1 else (st.next_rule_id + 1) % 256 },
        st.next_rule_id) := by
    unfold add_rule
    rw [hfind]
    simp [hinit, hsup, hid]
  have hnewid : (ActionRule.id { rule with id := st.next_rule_id }) = st.next_rule_id := rfl
  have hfind2 :
      find_rule_index (st.rules.set slot { rule with id := st.next_rule_id })
        st.next_rule_id = some slot :=
    find_rule_index_set st.next_rule_id st.rules slot _ hfresh hnewid hslot
  have hslot2 : slot < (st.rules.set slot { rule with id := st.next_rule_id }).length := by
    simpa using hslot
  have hget2 :
      (st.rules.set slot { rule with id := st.next_rule_id }).get? slot =
        some { rule with id := st.next_rule_id } :=
    list_get_set_self st.rules slot _ hslot
  have hy : (decide (r0.id ≠ 0)) = false := by simp [hr0]
  have hx : (decide (({ rule with id := st.next_rule_id } : ActionRule).id ≠ 0)) = true := by
    simp [hnz]
  have hcnt1 :
      (st.rules.set slot { rule with id := st.next_rule_id }).countP
          (fun r => decide (r.id ≠ 0)) =
        st.rules.countP (fun r => decide (r.id ≠ 0)) + 1 :=
    countP_set_incr (fun r => decide (r.id ≠ 0)) st.rules slot
      { rule with id := st.next_rule_id } r0 hget hx hy
  have hnext :
      (if (st.next_rule_id + 1) % 256 = 0 then 1 else (st.next_rule_id + 1) % 256) =
        (if st.next_rule_id = 255 then 1 else st.next_rule_id + 1) := by
    by_cases h255 : st.next_rule_id = 255
    · simp [h255]
    · have hmod : (st.next_rule_id + 1) % 256 = st.next_rule_id + 1 :=
        Nat.mod_eq_of_lt (by omega)
      rw [hmod, if_neg (by omega), if_neg h255]
  rw [hadd]
  refine ⟨rfl, hnz, hfresh, hnext, ?_, ?_, ?_, ?_, ?_⟩
  · unfold get_rule
    simp only [hfind2]
    exact hget2
  · unfold get_rule_count
    simpa using hcnt1
  · unfold remove_rule
    simp only [hfind2]
  · unfold remove_rule
    simp only [hfind2]
    unfold get_rule_count
    dsimp only
    have hyemp : (decide (empty_rule.id ≠ 0)) = false := by decide
    have hb := countP_set_decr (fun r => decide (r.id ≠ 0))
      (st.rules.set slot { rule with id := st.next_rule_id }) slot empty_rule
      { rule with id := st.next_rule_id } hget2 hyemp hx
    omega
  · refine ⟨slot, hfind2, ?_⟩
    unfold remove_rule
    simp only [hfind2]
    exact list_get_set_self _ slot _ hslot2

/-- Witness for C9 (amended): adding the id-0 GPIO rule to the one-slot store
with a fresh counter, then reading it back and removing it. -/
theorem add_rule_roundtrip_witness :
    st_w.initialized = true ∧ rule_z.id = 0 ∧ st_w.next_rule_id ≠ 0 ∧
    ((add_rule plat0 st_w rule_z).snd = st_w.next_rule_id ∧
    (add_rule plat0 st_w rule_z).snd ≠ 0 ∧
    (∀ r ∈ st_w.rules, r.id ≠ (add_rule plat0 st_w rule_z).snd) ∧
    (add_rule plat0 st_w rule_z).fst.next_rule_id =
      (if st_w.next_rule_id = 255 then 1 else st_w.next_rule_id + 1) ∧
    get_rule (add_rule plat0 st_w rule_z).fst (add_rule plat0 st_w rule_z).snd =
      some { rule_z with id := st_w.next_rule_id } ∧
    get_rule_count (add_rule plat0 st_w rule_z).fst = get_rule_count st_w + 1 ∧
    (remove_rule (add_rule plat0 st_w rule_z).fst
      (add_rule plat0 st_w rule_z).snd).snd = true ∧
    get_rule_count
        (remove_rule (add_rule plat0 st_w rule_z).fst
          (add_rule plat0 st_w rule_z).snd).fst =
      get_rule_count st_w ∧
    (∃ i,
      find_rule_index (add_rule plat0 st_w rule_z).fst.rules
          (add_rule plat0 st_w rule_z).snd = some i ∧
      (remove_rule (add_rule plat0 st_w rule_z).fst
          (add_rule plat0 st_w rule_z).snd).fst.rules.get? i = some empty_rule)) :=
  ⟨rfl, rfl, by decide,
    add_rule_roundtrip plat0 st_w rule_z rfl rfl rfl (by decide) (by decide) (by decide)
      (by decide)⟩

/-- Counterexample to C9 as stated: in the reachable store `st_dup` (one rule
stored under caller-supplied id 1, one free slot, auto-assign counter 1),
adding a rule with id 0 returns id 1 — an id already in use by the stored
rule — and reading id 1 back yields the OLD rule (CAN id 0x111), not the one
just added (CAN id 0x222). -/
theorem add_rule_id_collision :
    (add_rule plat0 st_dup rule_z).snd = 1 ∧
    ((st_dup.rules.get? 0).map (fun r => r.id)) = some 1 ∧
    ((get_rule (add_rule plat0 st_dup rule_z).fst 1).map (fun r => r.can_id)) =
      some 0x111 ∧
    rule_z.can_id = 0x222 := by
  refine ⟨by decide, by decide, by decide, by decide⟩
